import Mathlib

/-
Shallow embedding of `src/app.py` (NLP-Review_Analyzer), the review-sentiment
analysis backend.  External effects (the two TMDb HTTP calls, the pickled
vectorizer/model artifacts, the JSON request body) are modelled as explicit
inputs; Python exceptions raised by `requests.get`/`Response.json` are
modelled with `Except`; the sequence of outbound pipeline calls an
invocation performs is returned as an explicit trace.
-/

/-- Python-level failures that `requests.get` / `Response.json()` can raise
inside `find_movie_id_from_tmdb` and `get_reviews_for_movie`; the source has
no try/except around these calls, so such an exception propagates out of the
handler. -/
inductive PyErr where
  | connectionError
  | jsonDecodeError
  deriving DecidableEq, Repr

/-- One candidate item of the TMDb search response: the code reads only its
`id` field (`first_result['id']`, app.py line 58). -/
structure SearchCandidate where
  id : Int
  deriving DecidableEq, Repr

/-- Parsed JSON body of the TMDb search endpoint as the code observes it:
the code only reads `data_from_api.get('results')` and tests it for
truthiness; a missing `results` key (e.g. a TMDb error body) is observably
identical to an empty list, so both are modelled as `[]`. -/
structure SearchResponse where
  results : List SearchCandidate
  deriving DecidableEq, Repr

/-- One review item of the TMDb reviews response: the code reads only its
`content` field (`review_item['content']`, app.py line 82). -/
structure ReviewItem where
  content : String
  deriving DecidableEq, Repr

/-- Parsed JSON body of the TMDb reviews endpoint; as with search, a missing
`results` key is observably identical to an empty list. -/
structure ReviewsResponse where
  results : List ReviewItem
  deriving DecidableEq, Repr

/-- The API key constant pasted into app.py line 13. -/
def TMDB_API_KEY : String := "391f9c14603803d3fe13085a81d3a962"

/-- app.py lines 42-64.  The outcome of the one `requests.get` + `.json()`
pair is the argument: `Except.error` when the call raised (network error or
non-JSON body), `Except.ok` with the parsed body otherwise.  The function
itself catches nothing, so a raised exception propagates (`Except.error` in
the result); on a parsed body it returns the first candidate's id if the
`results` list is truthy (non-empty) and `None` (`Option.none`) otherwise. -/
def find_movie_id_from_tmdb (response_from_api : Except PyErr SearchResponse) :
    Except PyErr (Option Int) :=
  match response_from_api with
  | .error e => .error e
  | .ok data_from_api =>
    match data_from_api.results with
    | [] => .ok none
    | first_result :: _ => .ok (some first_result.id)

/-- app.py lines 67-86.  Same transport convention as
`find_movie_id_from_tmdb`; on a parsed body it extracts the `content` field
of each item of `results` in order (the loop at lines 78-83; when `results`
is missing or empty the loop body never runs and `[]` is returned). -/
def get_reviews_for_movie (response_from_api : Except PyErr ReviewsResponse) :
    Except PyErr (List String) :=
  match response_from_api with
  | .error e => .error e
  | .ok data_from_api => .ok (data_from_api.results.map (fun r => r.content))

/-- Modelled from the spec and the scikit-learn artifact contract: the
pickled `vectorizer.pkl` / `sentiment_model.pkl` pair (app.py lines 19-28)
is not in the repository, only loaded.  Per the spec, the vectorizer is a
fixed pre-fitted function from one text to one feature vector and the
classifier a fixed function from one feature vector to one numeric label;
batch `transform` / `predict` operate row-wise, 1:1 and order-preserving.
The feature representation is opaque, so it is a type parameter. -/
structure ClassifierState (F : Type) where
  vectorizeOne : String → F
  predictOne : F → Int

/-- Batch form of the vectorizer (`my_vectorizer.transform`, app.py line
143): row-wise over the input list. -/
def ClassifierState.transform {F : Type} (cs : ClassifierState F)
    (reviews_list : List String) : List F :=
  reviews_list.map cs.vectorizeOne

/-- Batch form of the model (`my_model.predict`, app.py line 145): row-wise
over the feature rows. -/
def ClassifierState.predict {F : Type} (cs : ClassifierState F)
    (reviews_vectorized : List F) : List Int :=
  reviews_vectorized.map cs.predictOne

/-- One entry of `final_results_list` (app.py lines 167-170): the review
text paired with the sentiment string. -/
structure ReviewResult where
  text : String
  sentiment : String
  deriving DecidableEq, Repr

/-- The JSON object built at app.py lines 176-181. -/
structure AnalysisSummary where
  positive_count : Nat
  negative_count : Nat
  total_reviews : Nat
  reviews : List ReviewResult
  deriving DecidableEq, Repr

/-- The distinct responses `handle_analysis_request` can produce: the four
error JSON responses (500 model, 500 key, 400 title, 404 not-found, 404
no-reviews), the success payload, and an uncaught Python exception
escaping the handler. -/
inductive Outcome where
  | modelUnavailable
  | apiKeyMissing
  | invalidInput
  | movieNotFound
  | noReviews
  | success (s : AnalysisSummary)
  | pyError (e : PyErr)
  deriving DecidableEq, Repr

/-- Trace events: the two outbound TMDb calls actually issued by an
invocation, and the vectorize+predict step actually reached. -/
inductive Call where
  | search (title : String)
  | reviews (movie_id : Int)
  | classify (reviews_list : List String)
  deriving DecidableEq, Repr

/-- The label mapping at app.py lines 158-164: prediction 1 gives
'Positive', any other prediction gives 'Negative'. -/
def labelOf (prediction : Int) : String :=
  if prediction == 1 then "Positive" else "Negative"

/-- Body of the counting loop at app.py lines 153-172, for one index `i`.
In the source `reviews_list[i]` / `sentiment_predictions[i]` are direct
indexings; the handler only runs the loop over `range(len(reviews_list))`
with `len(sentiment_predictions) = len(reviews_list)`, so every access is
in range and `getD` with a default agrees with the source there. -/
def classify_step (reviews_list : List String) (sentiment_predictions : List Int)
    (acc : List ReviewResult × Nat × Nat) (i : Nat) : List ReviewResult × Nat × Nat :=
  let review_text := reviews_list.getD i ""
  let prediction := sentiment_predictions.getD i 0
  if prediction == 1 then
    (acc.1 ++ [⟨review_text, "Positive"⟩], acc.2.1 + 1, acc.2.2)
  else
    (acc.1 ++ [⟨review_text, "Negative"⟩], acc.2.1, acc.2.2 + 1)

/-- The whole loop at app.py lines 149-172: starting from the empty
`final_results_list` and zero counters, fold `classify_step` over
`range(len(reviews_list))`.  Returns
(final_results_list, positive_review_count, negative_review_count). -/
def classify_loop (reviews_list : List String) (sentiment_predictions : List Int) :
    List ReviewResult × Nat × Nat :=
  (List.range reviews_list.length).foldl
    (classify_step reviews_list sentiment_predictions) ([], 0, 0)

/-- Steps 4-5 of the handler (app.py lines 147-181): run the counting loop
and package `final_response_data`, with `total_reviews` set to
`len(final_results_list)` exactly as in the source. -/
def summarize (reviews_list : List String) (sentiment_predictions : List Int) :
    AnalysisSummary :=
  let r := classify_loop reviews_list sentiment_predictions
  { positive_count := r.2.1
    negative_count := r.2.2
    total_reviews := r.1.length
    reviews := r.1 }

/-- app.py lines 100-184, `handle_analysis_request`.  Inputs: the loaded
classifier state (`None` when the startup `try` block at lines 19-37 failed,
which nulls both globals together), the `movie_title` value of the request
JSON (`none` when the key is absent), and what each TMDb endpoint would
deliver if called.  Output: the response outcome together with the trace of
pipeline calls actually performed.  Python truthiness is translated
exactly: `not movie_title_from_user` is true for the empty string and for a
missing value, and `not movie_id` is true for `None` and for the integer 0. -/
def handle_analysis_request {F : Type} (model_and_vectorizer : Option (ClassifierState F))
    (movie_title_from_user : Option String)
    (search_response : Except PyErr SearchResponse)
    (reviews_response : Except PyErr ReviewsResponse) :
    Outcome × List Call :=
  match model_and_vectorizer with
  | none => (.modelUnavailable, [])
  | some cs =>
    if TMDB_API_KEY == "PASTE_YOUR_API_KEY_HERE" then (.apiKeyMissing, [])
    else
      match movie_title_from_user with
      | none => (.invalidInput, [])
      | some movie_title =>
        if movie_title == "" then (.invalidInput, [])
        else
          match find_movie_id_from_tmdb search_response with
          | .error e => (.pyError e, [.search movie_title])
          | .ok none => (.movieNotFound, [.search movie_title])
          | .ok (some movie_id) =>
            if movie_id == 0 then (.movieNotFound, [.search movie_title])
            else
              match get_reviews_for_movie reviews_response with
              | .error e => (.pyError e, [.search movie_title, .reviews movie_id])
              | .ok reviews_list =>
                if reviews_list == ([] : List String) then
                  (.noReviews, [.search movie_title, .reviews movie_id])
                else
                  let reviews_vectorized := cs.transform reviews_list
                  let sentiment_predictions := cs.predict reviews_vectorized
                  (.success (summarize reviews_list sentiment_predictions),
                   [.search movie_title, .reviews movie_id, .classify reviews_list])

/-- A concrete classifier state over a trivial feature type, used to
instantiate theorems on closed inputs: every review is predicted 1. -/
def demoCS : ClassifierState Unit := ⟨fun _ => (), fun _ => 1⟩

/-- A concrete search response with one candidate, id 27205. -/
def demoSearch : Except PyErr SearchResponse := .ok ⟨[⟨27205⟩]⟩

/-- A concrete search response with an empty candidate list. -/
def demoNoMatch : Except PyErr SearchResponse := .ok ⟨[]⟩

/-- A concrete reviews response with two reviews. -/
def demoReviews : Except PyErr ReviewsResponse :=
  .ok ⟨[⟨"Great visuals"⟩, ⟨"Boring plot"⟩]⟩

/-- A concrete reviews response with zero reviews. -/
def demoEmptyReviews : Except PyErr ReviewsResponse := .ok ⟨[]⟩

/-- The summary the handler produces on `demoSearch`/`demoReviews` with
`demoCS` (both predictions are 1, hence both Positive). -/
def demoSummary : AnalysisSummary :=
  ⟨2, 0, 2, [⟨"Great visuals", "Positive"⟩, ⟨"Boring plot", "Positive"⟩]⟩

/-- The call trace of that same invocation. -/
def demoCalls : List Call :=
  [.search "Inception", .reviews 27205, .classify ["Great visuals", "Boring plot"]]

/-- Unfolding of one iteration of the counting loop. -/
lemma classify_step_eq (reviews_list : List String) (sentiment_predictions : List Int)
    (acc : List ReviewResult × Nat × Nat) (i : Nat) :
    classify_step reviews_list sentiment_predictions acc i =
      (acc.1 ++ [⟨reviews_list.getD i "", labelOf (sentiment_predictions.getD i 0)⟩],
       acc.2.1 + (if sentiment_predictions.getD i 0 == 1 then 1 else 0),
       acc.2.2 + (if sentiment_predictions.getD i 0 == 1 then 0 else 1)) := by
  simp only [classify_step, labelOf]
  split <;> simp

/-- Closed form of folding `classify_step` over any index list. -/
lemma foldl_classify_step (reviews_list : List String) (sentiment_predictions : List Int)
    (idxs : List Nat) (acc : List ReviewResult × Nat × Nat) :
    idxs.foldl (classify_step reviews_list sentiment_predictions) acc =
      (acc.1 ++ idxs.map (fun i =>
          ⟨reviews_list.getD i "", labelOf (sentiment_predictions.getD i 0)⟩),
       acc.2.1 + idxs.countP (fun i => sentiment_predictions.getD i 0 == 1),
       acc.2.2 + idxs.countP (fun i => !(sentiment_predictions.getD i 0 == 1))) := by
  induction idxs generalizing acc with
  | nil => simp
  | cons i idxs ih =>
    rw [List.foldl_cons, classify_step_eq, ih]
    simp [List.countP_cons, Nat.add_assoc, Nat.add_comm, Nat.add_left_comm]

/-- Closed form of the whole counting loop: the result list pairs the i-th
review with the label of the i-th prediction, and the two counters count the
predictions equal and not equal to 1. -/
lemma classify_loop_eq (reviews_list : List String) (sentiment_predictions : List Int) :
    classify_loop reviews_list sentiment_predictions =
      ((List.range reviews_list.length).map (fun i =>
          ⟨reviews_list.getD i "", labelOf (sentiment_predictions.getD i 0)⟩),
       (List.range reviews_list.length).countP
          (fun i => sentiment_predictions.getD i 0 == 1),
       (List.range reviews_list.length).countP
          (fun i => !(sentiment_predictions.getD i 0 == 1))) := by
  rw [classify_loop, foldl_classify_step]
  simp

/-- Every label the mapping produces is one of the two strings. -/
lemma labelOf_cases (p : Int) : labelOf p = "Positive" ∨ labelOf p = "Negative" := by
  unfold labelOf; split <;> simp

/-- The result list field of a summary, in closed form. -/
lemma summarize_reviews_eq (revs : List String) (preds : List Int) :
    (summarize revs preds).reviews = (List.range revs.length).map
      (fun i => ⟨revs.getD i "", labelOf (preds.getD i 0)⟩) := by
  simp [summarize, classify_loop_eq]

/-- The source sets `total_reviews` to the length of the result list. -/
lemma summarize_total (revs : List String) (preds : List Int) :
    (summarize revs preds).total_reviews = (summarize revs preds).reviews.length := rfl

/-- The result list has one entry per input review. -/
lemma summarize_len (revs : List String) (preds : List Int) :
    (summarize revs preds).reviews.length = revs.length := by
  simp [summarize, classify_loop_eq]

/-- The two counters sum to the result-list length. -/
lemma summarize_counts (revs : List String) (preds : List Int) :
    (summarize revs preds).positive_count + (summarize revs preds).negative_count =
      (summarize revs preds).reviews.length := by
  simp only [summarize, classify_loop_eq, List.length_map]
  have hfun : (fun i : Nat => !(preds.getD i 0 == 1)) =
      (fun a : Nat => decide ¬((preds.getD a 0 == 1) = true)) := by
    funext a; cases h : (preds.getD a 0 == 1) <;> simp [h]
  rw [hfun]
  exact (List.length_eq_countP_add_countP
    (fun i => preds.getD i 0 == 1) (List.range revs.length)).symm

/-- Inversion: a success outcome can only arise with the model loaded and a
non-empty fetched review list, and its payload is exactly the summary of
that list under the loaded classifier. -/
lemma handle_success_inv {F : Type} (mv : Option (ClassifierState F)) (t : Option String)
    (sr : Except PyErr SearchResponse) (rr : Except PyErr ReviewsResponse)
    (s : AnalysisSummary) (calls : List Call)
    (h : handle_analysis_request mv t sr rr = (.success s, calls)) :
    ∃ cs revs, mv = some cs ∧ revs ≠ [] ∧ get_reviews_for_movie rr = .ok revs ∧
      s = summarize revs (cs.predict (cs.transform revs)) := by
  unfold handle_analysis_request at h
  split at h
  · simp at h
  · rename_i cs
    split at h
    · simp at h
    · split at h
      · simp at h
      · split at h
        · simp at h
        · split at h
          · simp at h
          · simp at h
          · split at h
            · simp at h
            · split at h
              · simp at h
              · rename_i revs hne
                split at h
                · simp at h
                · rename_i hne2
                  simp only [Prod.mk.injEq, Outcome.success.injEq] at h
                  exact ⟨cs, revs, rfl, by simpa using hne2, hne, h.1.symm⟩

/-- With the model loaded and a truthy title, the handler reduces to the
resolver/fetcher/classifier part of the pipeline. -/
lemma handle_some_reduce {F : Type} (cs : ClassifierState F) (title : String)
    (ht : title ≠ "") (sr : Except PyErr SearchResponse) (rr : Except PyErr ReviewsResponse) :
    handle_analysis_request (some cs) (some title) sr rr =
      (match find_movie_id_from_tmdb sr with
       | .error e => (.pyError e, [.search title])
       | .ok none => (.movieNotFound, [.search title])
       | .ok (some movie_id) =>
         if movie_id == 0 then (.movieNotFound, [.search title])
         else
           match get_reviews_for_movie rr with
           | .error e => (.pyError e, [.search title, .reviews movie_id])
           | .ok reviews_list =>
             if reviews_list == ([] : List String) then
               (.noReviews, [.search title, .reviews movie_id])
             else
               (.success (summarize reviews_list (cs.predict (cs.transform reviews_list))),
                [.search title, .reviews movie_id, .classify reviews_list])) := by
  unfold handle_analysis_request
  have h1 : (TMDB_API_KEY == "PASTE_YOUR_API_KEY_HERE") = false := rfl
  have h2 : (title == "") = false := by simpa using ht
  simp only [h1, h2, Bool.false_eq_true, if_false]

/-- C1: for every invocation of the analysis handler that reaches the
classification stage (equivalently, every invocation returning a success
summary), the returned summary satisfies
positive_count + negative_count = total_reviews = length of the results
list. -/
theorem C1_summary_counts {F : Type} (mv : Option (ClassifierState F)) (t : Option String)
    (sr : Except PyErr SearchResponse) (rr : Except PyErr ReviewsResponse)
    (s : AnalysisSummary) (calls : List Call)
    (h : handle_analysis_request mv t sr rr = (.success s, calls)) :
    s.positive_count + s.negative_count = s.total_reviews ∧
    s.total_reviews = s.reviews.length := by
  obtain ⟨cs, revs, _, hne, hrr, rfl⟩ := handle_success_inv mv t sr rr s calls h
  exact ⟨summarize_counts revs _, summarize_total revs _⟩

/-- C1 witness at a concrete invocation. -/
theorem C1_witness :
    demoSummary.positive_count + demoSummary.negative_count = demoSummary.total_reviews ∧
    demoSummary.total_reviews = demoSummary.reviews.length :=
  C1_summary_counts (some demoCS) (some "Inception") demoSearch demoReviews demoSummary
    demoCalls (by decide)

/-- C2: prediction 1 maps to the label Positive, any other prediction maps
to Negative, and consequently every ReviewResult in a returned summary
carries one of exactly these two labels, never a third. -/
theorem C2_label_mapping {F : Type} (mv : Option (ClassifierState F)) (t : Option String)
    (sr : Except PyErr SearchResponse) (rr : Except PyErr ReviewsResponse)
    (s : AnalysisSummary) (calls : List Call)
    (h : handle_analysis_request mv t sr rr = (.success s, calls)) :
    (labelOf 1 = "Positive" ∧ ∀ p : Int, p ≠ 1 → labelOf p = "Negative") ∧
    ∀ r ∈ s.reviews, r.sentiment = "Positive" ∨ r.sentiment = "Negative" := by
  refine ⟨⟨rfl, fun p hp => ?_⟩, ?_⟩
  · have hb : (p == 1) = false := by simpa using hp
    simp [labelOf, hb]
  · obtain ⟨cs, revs, _, hne, hrr, rfl⟩ := handle_success_inv mv t sr rr s calls h
    intro r hr
    rw [summarize_reviews_eq] at hr
    simp only [List.mem_map] at hr
    obtain ⟨i, _, rfl⟩ := hr
    exact labelOf_cases _

/-- C2 witness at a concrete invocation and concrete prediction values. -/
theorem C2_witness :
    labelOf 1 = "Positive" ∧ labelOf 0 = "Negative" ∧
    ((⟨"Great visuals", "Positive"⟩ : ReviewResult).sentiment = "Positive" ∨
     (⟨"Great visuals", "Positive"⟩ : ReviewResult).sentiment = "Negative") := by
  have H := C2_label_mapping (some demoCS) (some "Inception") demoSearch demoReviews
    demoSummary demoCalls (by decide)
  exact ⟨H.1.1, H.1.2 0 (by decide), H.2 ⟨"Great visuals", "Positive"⟩ (by decide)⟩

/-- C3: on success the result list has exactly one entry per fetched review
and the i-th entry's text is the i-th review text returned by the fetcher:
retrieval order is preserved end to end. -/
theorem C3_order_preserved {F : Type} (mv : Option (ClassifierState F)) (t : Option String)
    (sr : Except PyErr SearchResponse) (rr : Except PyErr ReviewsResponse)
    (revs : List String) (s : AnalysisSummary) (calls : List Call)
    (h : handle_analysis_request mv t sr rr = (.success s, calls))
    (hrr : get_reviews_for_movie rr = .ok revs) :
    s.reviews.length = revs.length ∧
    ∀ i : Nat, i < revs.length → (s.reviews.getD i ⟨"", ""⟩).text = revs.getD i "" := by
  obtain ⟨cs, revs2, _, hne, hrr2, rfl⟩ := handle_success_inv mv t sr rr s calls h
  rw [hrr] at hrr2
  obtain rfl : revs = revs2 := by simpa using hrr2
  refine ⟨summarize_len revs _, fun i hi => ?_⟩
  rw [summarize_reviews_eq]
  rw [List.getD_eq_getElem _ _ (by simpa using hi), List.getElem_map, List.getElem_range]

/-- C3 witness at a concrete invocation, checking both indices. -/
theorem C3_witness :
    demoSummary.reviews.length = (["Great visuals", "Boring plot"] : List String).length ∧
    (demoSummary.reviews.getD 0 ⟨"", ""⟩).text =
      (["Great visuals", "Boring plot"] : List String).getD 0 "" ∧
    (demoSummary.reviews.getD 1 ⟨"", ""⟩).text =
      (["Great visuals", "Boring plot"] : List String).getD 1 "" := by
  have H := C3_order_preserved (some demoCS) (some "Inception") demoSearch demoReviews
    ["Great visuals", "Boring plot"] demoSummary demoCalls (by decide) rfl
  exact ⟨H.1, H.2 0 (by decide), H.2 1 (by decide)⟩

/-- C4: if the classifier state failed to load at startup, every invocation,
for every title and whatever the catalog would answer, returns the
model-unavailable outcome and issues no catalog calls at all. -/
theorem C4_model_unavailable {F : Type} (t : Option String)
    (sr : Except PyErr SearchResponse) (rr : Except PyErr ReviewsResponse) :
    handle_analysis_request (none : Option (ClassifierState F)) t sr rr =
      (.modelUnavailable, []) := rfl

/-- C5 counterexample: a movie that resolves successfully — a non-empty
candidate list, whose first candidate happens to carry the falsy identifier
0 — and has zero reviews does NOT yield the no-reviews outcome: the
handler's truthiness test on the returned id reports movie-not-found
instead, refuting the claim as stated. -/
theorem C5_counterexample :
    find_movie_id_from_tmdb (.ok ⟨[⟨0⟩]⟩) = .ok (some 0) ∧
    get_reviews_for_movie demoEmptyReviews = .ok [] ∧
    (handle_analysis_request (some demoCS) (some "Inception") (.ok ⟨[⟨0⟩]⟩)
        demoEmptyReviews).1 ≠ .noReviews ∧
    (handle_analysis_request (some demoCS) (some "Inception") (.ok ⟨[⟨0⟩]⟩)
        demoEmptyReviews).1 = .movieNotFound :=
  ⟨rfl, rfl, by decide, by decide⟩

/-- C5 amended: a movie that resolves to a truthy (nonzero) identifier but
has zero reviews yields the no-reviews outcome, and no invocation whatsoever
returns a success summary with total_reviews = 0; a movie resolving to the
falsy identifier 0 is instead reported as movie-not-found. -/
theorem C5_no_reviews {F : Type} (cs : ClassifierState F) (title : String)
    (sr : Except PyErr SearchResponse) (rr : Except PyErr ReviewsResponse) (movie_id : Int)
    (ht : title ≠ "") (hid : find_movie_id_from_tmdb sr = .ok (some movie_id))
    (hmid : movie_id ≠ 0) (hrr : get_reviews_for_movie rr = .ok []) :
    (handle_analysis_request (some cs) (some title) sr rr).1 = .noReviews ∧
    (∀ {G : Type} (mv : Option (ClassifierState G)) (t2 : Option String)
        (sr2 : Except PyErr SearchResponse) (rr2 : Except PyErr ReviewsResponse)
        (s : AnalysisSummary) (calls : List Call),
      handle_analysis_request mv t2 sr2 rr2 = (.success s, calls) → s.total_reviews ≠ 0) ∧
    (∀ rest : List SearchCandidate,
      (handle_analysis_request (some cs) (some title) (.ok ⟨⟨0⟩ :: rest⟩) rr).1 =
        .movieNotFound) := by
  refine ⟨?_, ?_, ?_⟩
  · rw [handle_some_reduce cs title ht sr rr, hid, hrr]
    have h3 : (movie_id == 0) = false := by simpa using hmid
    simp [h3]
  · intro G mv t2 sr2 rr2 s calls h
    obtain ⟨cs2, revs, _, hne, hrr2, rfl⟩ := handle_success_inv mv t2 sr2 rr2 s calls h
    rw [summarize_total, summarize_len]
    simpa using hne
  · intro rest
    rw [handle_some_reduce cs title ht _ rr]
    rfl

/-- C5 witness at a concrete invocation with an empty review list. -/
theorem C5_witness :
    (handle_analysis_request (some demoCS) (some "Inception") demoSearch demoEmptyReviews).1 =
      .noReviews :=
  (C5_no_reviews demoCS "Inception" demoSearch demoEmptyReviews 27205 (by decide) rfl
    (by decide) rfl).1

/-- C6: the resolver returns the id of the first candidate of a non-empty
candidate list, and returns the not-found value (not an exception) on an
empty candidate list. -/
theorem C6_first_candidate (first_result : SearchCandidate) (rest : List SearchCandidate) :
    find_movie_id_from_tmdb (.ok ⟨first_result :: rest⟩) = .ok (some first_result.id) ∧
    find_movie_id_from_tmdb (.ok ⟨[]⟩) = .ok none := ⟨rfl, rfl⟩

/-- C7 counterexample: a whitespace-only title (a single space) is truthy in
Python, so the handler does not return the invalid-input outcome and does
issue a catalog call, contradicting the claim that every whitespace-only
title is rejected before the resolver with no network calls. -/
theorem C7_counterexample :
    (handle_analysis_request (some demoCS) (some " ") demoSearch demoReviews).1 ≠
      Outcome.invalidInput ∧
    (handle_analysis_request (some demoCS) (some " ") demoSearch demoReviews).2 ≠ [] := by
  decide

/-- C7 amended: for every request whose title is missing or exactly the
empty string, the handler returns the invalid-input outcome before the
resolver and makes no catalog calls (whitespace-only titles are not
rejected). -/
theorem C7_empty_title {F : Type} (cs : ClassifierState F) (t : Option String)
    (ht : t = none ∨ t = some "")
    (sr : Except PyErr SearchResponse) (rr : Except PyErr ReviewsResponse) :
    handle_analysis_request (some cs) t sr rr = (.invalidInput, []) := by
  rcases ht with rfl | rfl <;> rfl

/-- C7 witness at the concrete empty-string title. -/
theorem C7_witness :
    handle_analysis_request (some demoCS) (some "") demoSearch demoReviews =
      (Outcome.invalidInput, []) :=
  C7_empty_title demoCS (some "") (Or.inr rfl) demoSearch demoReviews

/-- C8 counterexample: a transport-level failure of the search call is not
treated as not-found: at a concrete network error the resolver's result is
the propagated exception, not the not-found value, and the handler's outcome
is the escaped exception rather than the movie-not-found outcome. -/
theorem C8_counterexample :
    find_movie_id_from_tmdb (.error .connectionError) ≠ .ok none ∧
    (handle_analysis_request (some demoCS) (some "Inception") (.error .connectionError)
        demoReviews).1 ≠ .movieNotFound ∧
    (handle_analysis_request (some demoCS) (some "Inception") (.error .connectionError)
        demoReviews).1 = .pyError .connectionError := by
  refine ⟨fun h => Except.noConfusion h, by decide⟩

/-- C8 amended: a parsed search response lacking a non-empty candidate list
is treated as not-found, while a transport-level or JSON-parsing failure
instead propagates as an uncaught exception out of the handler. -/
theorem C8_transport_vs_empty {F : Type} (cs : ClassifierState F) (title : String)
    (ht : title ≠ "") (e : PyErr) (rr : Except PyErr ReviewsResponse) :
    find_movie_id_from_tmdb (.ok ⟨[]⟩) = .ok none ∧
    find_movie_id_from_tmdb (.error e) = .error e ∧
    (handle_analysis_request (some cs) (some title) (.error e) rr).1 = .pyError e := by
  refine ⟨rfl, rfl, ?_⟩
  rw [handle_some_reduce cs title ht _ rr]
  rfl

/-- C8 witness at a concrete connection error. -/
theorem C8_witness :
    find_movie_id_from_tmdb (.ok ⟨[]⟩) = .ok none ∧
    find_movie_id_from_tmdb (.error .connectionError) = .error .connectionError ∧
    (handle_analysis_request (some demoCS) (some "Inception") (.error .connectionError)
        demoReviews).1 = .pyError .connectionError :=
  C8_transport_vs_empty demoCS "Inception" (by decide) .connectionError demoReviews

/-- C9: the pipeline short-circuits: with the model missing no catalog call
is issued; when resolution yields not-found only the search call has been
issued (no fetch, no classification); when the fetched review list is empty
only the search and reviews calls have been issued (no classification). -/
theorem C9_short_circuit {F : Type} (cs : ClassifierState F) (title : String)
    (ht : title ≠ "")
    (sr : Except PyErr SearchResponse) (rr : Except PyErr ReviewsResponse) :
    (handle_analysis_request (none : Option (ClassifierState F)) (some title) sr rr).2 = [] ∧
    (find_movie_id_from_tmdb sr = .ok none →
      (handle_analysis_request (some cs) (some title) sr rr).2 = [.search title]) ∧
    (∀ movie_id : Int, find_movie_id_from_tmdb sr = .ok (some movie_id) → movie_id ≠ 0 →
      get_reviews_for_movie rr = .ok [] →
      (handle_analysis_request (some cs) (some title) sr rr).2 =
        [.search title, .reviews movie_id]) := by
  refine ⟨rfl, fun hid => ?_, fun movie_id hid hmid hrr => ?_⟩
  · rw [handle_some_reduce cs title ht sr rr, hid]
  · rw [handle_some_reduce cs title ht sr rr, hid, hrr]
    have h3 : (movie_id == 0) = false := by simpa using hmid
    simp [h3]

/-- C9 witness: the three short-circuit shapes at concrete inputs. -/
theorem C9_witness :
    (handle_analysis_request (none : Option (ClassifierState Unit)) (some "Inception")
        demoSearch demoReviews).2 = [] ∧
    (handle_analysis_request (some demoCS) (some "Inception") demoNoMatch demoReviews).2 =
      [.search "Inception"] ∧
    (handle_analysis_request (some demoCS) (some "Inception") demoSearch demoEmptyReviews).2 =
      [.search "Inception", .reviews 27205] :=
  ⟨(C9_short_circuit demoCS "Inception" (by decide) demoSearch demoReviews).1,
   (C9_short_circuit demoCS "Inception" (by decide) demoNoMatch demoReviews).2.1 rfl,
   (C9_short_circuit demoCS "Inception" (by decide) demoSearch demoEmptyReviews).2.2 27205
     rfl (by decide) rfl⟩

/-- C10: a candidate list whose first candidate has the falsy identifier 0
makes the resolver return id 0, which the handler's truthiness test then
reports as movie-not-found even though resolution succeeded. -/
theorem C10_falsy_id {F : Type} (cs : ClassifierState F) (title : String)
    (ht : title ≠ "") (rest : List SearchCandidate) (rr : Except PyErr ReviewsResponse) :
    find_movie_id_from_tmdb (.ok ⟨⟨0⟩ :: rest⟩) = .ok (some 0) ∧
    (handle_analysis_request (some cs) (some title) (.ok ⟨⟨0⟩ :: rest⟩) rr).1 =
      .movieNotFound := by
  refine ⟨rfl, ?_⟩
  rw [handle_some_reduce cs title ht _ rr]
  rfl

/-- C10 witness at a concrete one-candidate response with id 0. -/
theorem C10_witness :
    find_movie_id_from_tmdb (.ok ⟨[⟨0⟩]⟩) = .ok (some 0) ∧
    (handle_analysis_request (some demoCS) (some "Inception") (.ok ⟨[⟨0⟩]⟩) demoReviews).1 =
      .movieNotFound :=
  C10_falsy_id demoCS "Inception" (by decide) [] demoReviews
